import Mathlib

/-!
Verification of `website/create-og-image.py` (horsestrap repository).

The script composes a 1200x630 OG image: a gradient background drawn one
scanline at a time, an optional mascot paste, font resolution with a
fallback, six text draws, and a PNG save; on ImportError, or on any other
exception raised during composition, it prints diagnostics and copies the
mascot file over the output path.

The embedding translates the script's module-level code into Lean: the
per-scanline arithmetic becomes exact rational arithmetic (for the
operands the script uses, Python binary64 float arithmetic truncates to
the same integers: the exact values `74 - 16*y/630` are never within
`1/315` of an integer except where they are exactly integral), the canvas
becomes an explicit pixel-function structure, and the effectful control
flow (try/except, file-existence checks) becomes a function from an
environment describing the outside world to a run result.
-/

namespace Horsestrap

/-- An RGB color triple; channel values as the script's arithmetic
produces them, before hex formatting. -/
structure Color where
  r : ℤ
  g : ℤ
  b : ℤ
deriving DecidableEq

/-- Source: `width, height = 1200, 630`. -/
def width : ℕ := 1200

/-- Source: `width, height = 1200, 630`. -/
def height : ℕ := 630

/-- Python's `int()` applied to a real number: truncation toward zero. -/
def pyInt (q : ℚ) : ℤ := if 0 ≤ q then ⌊q⌋ else ⌈q⌉

/-- Source: `color_value = int(0x4a + (0x3a - 0x4a) * (y / height))`,
with `y / height` read as exact division (see the header note on float
rounding). -/
def color_value (y : ℕ) : ℤ :=
  pyInt ((0x4a : ℚ) + ((0x3a : ℚ) - (0x4a : ℚ)) * ((y : ℚ) / (height : ℚ)))

/-- Closed form of `color_value` on the loop's range, used for
computation: `(46620 - 16*y) / 630` in natural-number arithmetic. -/
def color_valueN (y : ℕ) : ℕ := (46620 - 16 * y) / 630

/-- The color drawn at scanline `y`:
`color = f'#{color_value:02x}{color_value-10:02x}{color_value+20:02x}'`. -/
def gradientColor (y : ℕ) : Color :=
  ⟨color_value y, color_value y - 10, color_value y + 20⟩

/-- The canvas base color `'#4a4554'`. -/
def baseColor : Color := ⟨0x4a, 0x45, 0x54⟩

/-- A raster image: dimensions plus a pixel function. -/
structure Img where
  w : ℕ
  h : ℕ
  pix : ℕ → ℕ → Color

/-- Source: `img = Image.new('RGB', (width, height), color='#4a4554')`. -/
def newImage : Img := ⟨width, height, fun _ _ => baseColor⟩

/-- Source: `draw.line([(0, y), (width, y)], fill=color)`: a horizontal
segment covering every pixel of row `y` with `x ≤ width` (the endpoint
`x = width` lies just off the canvas). -/
def drawHLine (img : Img) (y : ℕ) (c : Color) : Img :=
  { img with pix := fun xp yp => if yp = y ∧ xp ≤ width then c else img.pix xp yp }

/-- The gradient loop: `for y in range(height): ... draw.line(...)`. -/
def gradientImg : Img :=
  (List.range height).foldl (fun im y => drawHLine im y (gradientColor y)) newImage

/-- A decoded raster image as PIL presents it: dimensions, whether its
mode is `'RGBA'`, and per-pixel color and alpha band (the alpha band is
meaningful when the mode is RGBA). -/
structure Mascot where
  w : ℕ
  h : ℕ
  mode_RGBA : Bool
  pix : ℕ → ℕ → Color
  alpha : ℕ → ℕ → ℕ

/-- The resampling filter named in `Image.Resampling.LANCZOS`. -/
inductive Resampling
  | LANCZOS
deriving DecidableEq

/-- Pixel content produced by the resampling filter. The floating-point
Lanczos kernel of the imaging library is abstracted as an oracle supplied
by the environment; what the library guarantees (output size and mode)
is fixed by `pilResize` below. -/
structure ResampleOracle where
  pix : ℕ → ℕ → Color
  alpha : ℕ → ℕ → ℕ

/-- Source: `mascot = mascot.resize((280, 280), Image.Resampling.LANCZOS)`.
PIL's `resize` returns a new image of exactly the requested size and the
same mode; resampled pixel values come from the oracle. -/
def pilResize (m : Mascot) (wr hr : ℕ) (_f : Resampling) (o : ResampleOracle) : Mascot :=
  ⟨wr, hr, m.mode_RGBA, o.pix, o.alpha⟩

/-- One channel of PIL's mask blending for an 8-bit mask value `a`:
`(bg*(255-a) + src*a) / 255`, exact at the endpoints `a = 0` (background
kept) and `a = 255` (source taken), which are the only values the claims
rely on. -/
def blend (bg src : ℤ) (a : ℕ) : ℤ := (bg * (255 - (a : ℤ)) + src * (a : ℤ)) / 255

/-- Blend a full pixel under a mask value `a`. -/
def pastePixel (bg src : Color) (a : ℕ) : Color :=
  ⟨blend bg.r src.r a, blend bg.g src.g a, blend bg.b src.b a⟩

/-- Source: `img.paste(mascot, (100, 175), mascot if mascot.mode == 'RGBA'
else None)`. With a mask, each pasted pixel is blended through the
mascot's alpha band; without one the paste is opaque. Pixels outside the
pasted rectangle are untouched. -/
def pasteImg (img : Img) (m : Mascot) (ox oy : ℕ) (useMask : Bool) : Img :=
  { img with pix := fun x y =>
      if ox ≤ x ∧ x < ox + m.w ∧ oy ≤ y ∧ y < oy + m.h then
        if useMask then
          pastePixel (img.pix x y) (m.pix (x - ox) (y - oy)) (m.alpha (x - ox) (y - oy))
        else m.pix (x - ox) (y - oy)
      else img.pix x y }

/-- A font handle as the script resolves it. -/
inductive Font
  | truetype (path : String) (size : ℕ)
  | load_default
deriving DecidableEq

/-- The four font variables assigned by the font-resolution block. -/
structure Fonts where
  title_font : Font
  subtitle_font : Font
  tagline_font : Font
  feature_font : Font
deriving DecidableEq

/-- The fixed system font path used by all four `truetype` calls. -/
def arialPath : String := "/System/Library/Fonts/Arial.ttf"

/-- One `ImageFont.truetype(arialPath, size)` call inside the try block;
`fails i` says whether the `i`-th call raises. -/
def tryTruetype (fails : Fin 4 → Bool) (i : Fin 4) (size : ℕ) : Except Unit Font :=
  if fails i then Except.error () else Except.ok (Font.truetype arialPath size)

/-- The try block loading the four fonts in order (72, 28, 24, 18); the
first failing call aborts the block. -/
def loadFontsTry (fails : Fin 4 → Bool) : Except Unit Fonts := do
  let t ← tryTruetype fails 0 72
  let s ← tryTruetype fails 1 28
  let g ← tryTruetype fails 2 24
  let f ← tryTruetype fails 3 18
  Except.ok ⟨t, s, g, f⟩

/-- The whole font-resolution try/except: on any failure, the except arm
assigns `ImageFont.load_default()` to all four variables. -/
def loadFonts (fails : Fin 4 → Bool) : Fonts :=
  match loadFontsTry fails with
  | Except.ok fs => fs
  | Except.error _ =>
      ⟨Font.load_default, Font.load_default, Font.load_default, Font.load_default⟩

/-- The all-system-font outcome of font resolution. -/
def systemFonts : Fonts :=
  ⟨Font.truetype arialPath 72, Font.truetype arialPath 28,
   Font.truetype arialPath 24, Font.truetype arialPath 18⟩

/-- The all-fallback outcome of font resolution. -/
def defaultFonts : Fonts :=
  ⟨Font.load_default, Font.load_default, Font.load_default, Font.load_default⟩

/-- One `draw.text(pos, text, fill=..., font=..., anchor=...)` call. -/
structure TextCmd where
  pos : ℕ × ℕ
  text : String
  fill : String
  font : Font
  anchor : Option String
deriving DecidableEq

/-- Source: `x_text = 450`. -/
def x_text : ℕ := 450

/-- Source: `y_start = 180`. -/
def y_start : ℕ := 180

/-- The sequence of `draw.text` calls, in program order, with the
positions, strings, colors, font roles and anchors of the source. -/
def textCommands (fonts : Fonts) : List TextCmd :=
  [ ⟨(x_text, y_start), "HORSESTRAP", "#f5f5f0", fonts.title_font, none⟩,
    ⟨(x_text, y_start + 100), "The Anti-Framework Framework", "#b8b8c0", fonts.subtitle_font, none⟩,
    ⟨(x_text, y_start + 150), "Zero-config deployment for .NET Umbraco CMS", "#999999", fonts.tagline_font, none⟩,
    ⟨(x_text, y_start + 180), "Fresh Ubuntu to live site in 2 minutes", "#999999", fonts.tagline_font, none⟩,
    ⟨(x_text, y_start + 230), "🚀 2-Min Deploy    🖥️ CMS Ready    ⚡ Auto SSL", "#f5f5f0", fonts.feature_font, none⟩,
    ⟨(1160, 600), "No horse shit, just results. 🐴", "#999999", fonts.feature_font, some ("ra")⟩ ]

/-- Events recorded for the mascot-compositing step. -/
inductive Event
  | resize (w h : ℕ) (f : Resampling)
  | paste (x y : ℕ) (withMask : Bool)
deriving DecidableEq

/-- The mascot file on disk: its raw bytes (what `shutil.copy` moves)
and the image it decodes to (what `Image.open` yields). -/
structure MascotFile where
  bytes : List ℕ
  image : Mascot

/-- The outside world of one run: whether `from PIL import ...` succeeds,
the mascot file if `'horsestrap-mascot.png'` exists, the resampling
oracle, which truetype calls fail, and an injected exception (with its
message) standing for any other error raised during composition. -/
structure Env where
  pilAvailable : Bool
  mascot : Option MascotFile
  oracle : ResampleOracle
  fontFails : Fin 4 → Bool
  bodyError : Option String

/-- Everything the try-body produces when it runs to completion. -/
structure ComposeResult where
  afterGradient : Img
  afterMascot : Img
  mascotEvents : List Event
  fonts : Fonts
  texts : List TextCmd
  savedPath : String
  savedFormat : String
  savedW : ℕ
  savedH : ℕ

/-- The try-body: gradient, conditional mascot compositing
(`if os.path.exists('horsestrap-mascot.png'): ...`), font resolution,
text drawing, and `img.save('horsestrap-og-image.png', 'PNG', quality=95)`. -/
def compose (env : Env) : ComposeResult :=
  let g := gradientImg
  let step :=
    match env.mascot with
    | none => (g, ([] : List Event))
    | some mf =>
        let m := pilResize mf.image 280 280 Resampling.LANCZOS env.oracle
        (pasteImg g m 100 175 m.mode_RGBA,
         [Event.resize 280 280 Resampling.LANCZOS, Event.paste 100 175 m.mode_RGBA])
  let fonts := loadFonts env.fontFails
  { afterGradient := g
    afterMascot := step.1
    mascotEvents := step.2
    fonts := fonts
    texts := textCommands fonts
    savedPath := "horsestrap-og-image.png"
    savedFormat := "PNG"
    savedW := step.1.w
    savedH := step.1.h }

/-- What ends up at the output path `'horsestrap-og-image.png'`. -/
inductive OutFile
  | png (w h : ℕ) (format : String)
  | copyOfBytes (bytes : List ℕ)
deriving DecidableEq

/-- How the process ends: an output file written, or an unhandled
exception. -/
inductive Outcome
  | wrote (f : OutFile)
  | crashed
deriving DecidableEq

/-- Console lines printed plus the terminal outcome of the run. -/
structure RunResult where
  console : List String
  outcome : Outcome
deriving DecidableEq

/-- First line printed by the ImportError handler. -/
def importErrorMsg : String := "PIL/Pillow not available. Please install with: pip install Pillow"

/-- Second line printed by both exception handlers. -/
def fallbackMsg : String := "Falling back to copying mascot as OG image..."

/-- Line printed after a successful save. -/
def successMsg : String := "OG image created successfully: horsestrap-og-image.png"

/-- Line printed by the catch-all handler: `f'Error creating OG image: {e}'`. -/
def composeErrorMsg (e : String) : String := "Error creating OG image: " ++ e

/-- Source: `shutil.copy('horsestrap-mascot.png', 'horsestrap-og-image.png')`
as both handlers run it, after their prints: a byte-for-byte copy when the
source file exists, an unhandled `FileNotFoundError` (process crash)
when it does not. -/
def shutilCopy (env : Env) (msgs : List String) : RunResult :=
  match env.mascot with
  | some mf => ⟨msgs, Outcome.wrote (OutFile.copyOfBytes mf.bytes)⟩
  | none => ⟨msgs, Outcome.crashed⟩

/-- The whole script: the try-body guarded by the two except handlers.
`bodyError = some e` injects an exception raised at some point of the
body (caught by `except Exception as e`); `pilAvailable = false` makes
the initial import raise (caught by `except ImportError`). -/
def run (env : Env) : RunResult :=
  if env.pilAvailable then
    match env.bodyError with
    | some e => shutilCopy env [composeErrorMsg e, fallbackMsg]
    | none =>
        let c := compose env
        ⟨[successMsg], Outcome.wrote (OutFile.png c.savedW c.savedH c.savedFormat)⟩
  else
    shutilCopy env [importErrorMsg, fallbackMsg]

/-- Sample resampling oracle for witnesses. -/
def sampleOracle : ResampleOracle := ⟨fun _ _ => ⟨0, 0, 0⟩, fun _ _ => 0⟩

/-- Sample RGBA mascot image (fully transparent) for witnesses. -/
def sampleMascotRGBA : Mascot := ⟨280, 280, true, fun _ _ => ⟨1, 2, 3⟩, fun _ _ => 0⟩

/-- Sample non-alpha mascot image for witnesses. -/
def sampleMascotRGB : Mascot := ⟨280, 280, false, fun _ _ => ⟨1, 2, 3⟩, fun _ _ => 7⟩

/-- Sample mascot file for witnesses. -/
def sampleMascotFile : MascotFile := ⟨[137, 80, 78, 71], sampleMascotRGBA⟩

/-- Environment: import fails, mascot present. -/
def envNoPil : Env := ⟨false, some sampleMascotFile, sampleOracle, fun _ => false, none⟩

/-- Environment: import succeeds, composition raises, mascot present. -/
def envBodyError : Env := ⟨true, some sampleMascotFile, sampleOracle, fun _ => false, some ("boom")⟩

/-- Environment: fully successful run with mascot present. -/
def envOk : Env := ⟨true, some sampleMascotFile, sampleOracle, fun _ => false, none⟩

/-- Environment: successful run, mascot absent. -/
def envOkNoMascot : Env := ⟨true, none, sampleOracle, fun _ => false, none⟩

/-- Environment: import fails and mascot absent. -/
def envNoPilNoMascot : Env := ⟨false, none, sampleOracle, fun _ => false, none⟩

/-!  Helper lemmas. -/

/-- On the loop's range, `color_value` has the closed natural-number form
`(46620 - 16*y) / 630`. -/
theorem color_value_eq (y : ℕ) (hy : y < 630) : color_value y = (color_valueN y : ℤ) := by
  have h16 : 16 * y ≤ 46620 := by omega
  have harg : ((0x4a : ℚ) + ((0x3a : ℚ) - (0x4a : ℚ)) * ((y : ℚ) / (height : ℚ)))
      = ((46620 - 16 * y : ℕ) : ℚ) / ((630 : ℕ) : ℚ) := by
    rw [Nat.cast_sub h16]
    simp only [height]
    push_cast
    field_simp
    ring
  have hnonneg : (0 : ℚ) ≤ ((46620 - 16 * y : ℕ) : ℚ) / ((630 : ℕ) : ℚ) := by positivity
  rw [color_value, pyInt, harg, if_pos hnonneg, Rat.floor_natCast_div_natCast]
  rw [color_valueN]
  exact (Int.natCast_div _ _).symm

set_option maxRecDepth 8000 in
theorem color_valueN_bounds : ∀ y < 630, 58 ≤ color_valueN y ∧ color_valueN y ≤ 74 := by decide

theorem gradientStep_pix (l : List ℕ) : ∀ (im : Img) (x y : ℕ), x ≤ width →
    ((l.foldl (fun i yy => drawHLine i yy (gradientColor yy)) im).pix x y)
      = if y ∈ l then gradientColor y else im.pix x y := by
  induction l with
  | nil => intro im x y _; simp
  | cons a t ih =>
      intro im x y hx
      rw [List.foldl_cons, ih _ x y hx]
      by_cases hyt : y ∈ t
      · simp [hyt, List.mem_cons]
      · by_cases hya : y = a
        · subst hya
          simp [hyt, drawHLine, hx]
        · simp [hyt, hya, drawHLine, List.mem_cons]

theorem gradientStep_w (l : List ℕ) :
    ∀ im : Img, (l.foldl (fun i yy => drawHLine i yy (gradientColor yy)) im).w = im.w := by
  induction l with
  | nil => intro im; rfl
  | cons a t ih => intro im; rw [List.foldl_cons, ih]; rfl

theorem gradientStep_h (l : List ℕ) :
    ∀ im : Img, (l.foldl (fun i yy => drawHLine i yy (gradientColor yy)) im).h = im.h := by
  induction l with
  | nil => intro im; rfl
  | cons a t ih => intro im; rw [List.foldl_cons, ih]; rfl

theorem gradientImg_w : gradientImg.w = 1200 := by
  rw [gradientImg, gradientStep_w]; rfl

theorem gradientImg_h : gradientImg.h = 630 := by
  rw [gradientImg, gradientStep_h]; rfl

theorem gradientImg_pix (x y : ℕ) (hy : y < 630) (hx : x ≤ 1200) :
    gradientImg.pix x y = gradientColor y := by
  rw [gradientImg, gradientStep_pix _ _ _ _ hx]
  simp [List.mem_range, height, hy]

theorem loadFonts_eq (fails : Fin 4 → Bool) :
    loadFonts fails =
      if fails 0 || fails 1 || fails 2 || fails 3 then defaultFonts else systemFonts := by
  cases h0 : fails 0 <;> cases h1 : fails 1 <;> cases h2 : fails 2 <;> cases h3 : fails 3 <;>
    simp [loadFonts, loadFontsTry, tryTruetype, h0, h1, h2, h3, systemFonts, defaultFonts,
      Bind.bind, Except.bind]

theorem compose_savedW (env : Env) : (compose env).savedW = 1200 := by
  cases hm : env.mascot <;> simp [compose, hm, pasteImg, gradientImg_w]

theorem compose_savedH (env : Env) : (compose env).savedH = 630 := by
  cases hm : env.mascot <;> simp [compose, hm, pasteImg, gradientImg_h]

theorem blend_zero (bg src : ℤ) : blend bg src 0 = bg := by
  simp [blend]

theorem pastePixel_zero (bg src : Color) : pastePixel bg src 0 = bg := by
  cases bg
  simp [pastePixel, blend_zero]

/-!  Claim theorems. -/

/-- C1: for every scanline `y` in `[0, 630)` the gradient computation
produces red, green and blue channel values that all lie in `0..255`
(in particular at the boundary rows `y = 0` and `y = 629`), so the
unguarded offsets `green = red - 10`, `blue = red + 20` never overflow
or underflow for the constants `0x4a` and `0x3a`. -/
theorem C1_gradient_channels_in_range :
    ∀ y : ℕ, y < 630 →
      (0 ≤ (gradientColor y).r ∧ (gradientColor y).r ≤ 255) ∧
      (0 ≤ (gradientColor y).g ∧ (gradientColor y).g ≤ 255) ∧
      (0 ≤ (gradientColor y).b ∧ (gradientColor y).b ≤ 255) := by
  intro y hy
  have he := color_value_eq y hy
  have hb := color_valueN_bounds y hy
  simp only [gradientColor, he]
  omega

/-- Witness for C1 at the boundary rows `y = 0` and `y = 629`. -/
theorem C1_witness :
    ((0 ≤ (gradientColor 0).r ∧ (gradientColor 0).r ≤ 255) ∧
      (0 ≤ (gradientColor 0).g ∧ (gradientColor 0).g ≤ 255) ∧
      (0 ≤ (gradientColor 0).b ∧ (gradientColor 0).b ≤ 255)) ∧
    ((0 ≤ (gradientColor 629).r ∧ (gradientColor 629).r ≤ 255) ∧
      (0 ≤ (gradientColor 629).g ∧ (gradientColor 629).g ≤ 255) ∧
      (0 ≤ (gradientColor 629).b ∧ (gradientColor 629).b ≤ 255)) :=
  ⟨C1_gradient_channels_in_range 0 (by decide),
   C1_gradient_channels_in_range 629 (by decide)⟩

/-- C2: for every scanline `y` in `[0, 630)` the gradient fill paints
every canvas pixel of row `y` with the color whose red channel is the
integer truncation of `0x4a + (0x3a - 0x4a) * (y / height)`, green that
value minus 10 and blue that value plus 20. -/
theorem C2_gradient_scanlines :
    ∀ y : ℕ, y < 630 → ∀ x : ℕ, x < 1200 →
      gradientImg.pix x y = ⟨color_value y, color_value y - 10, color_value y + 20⟩ := by
  intro y hy x hx
  rw [gradientImg_pix x y hy (by omega)]
  rfl

/-- Witness for C2 at pixel `(7, 5)`. -/
theorem C2_witness :
    gradientImg.pix 7 5 = ⟨color_value 5, color_value 5 - 10, color_value 5 + 20⟩ :=
  C2_gradient_scanlines 5 (by decide) 7 (by decide)

/-- C3: when the imaging library cannot be imported, and when any other
error is raised during composition, the script reports the condition on
the console (the import failure distinctly, the other case with the
underlying error's message) and then writes the output file as a
byte-for-byte copy of the mascot file. -/
theorem C3_fallback_copy :
    ∀ (env : Env) (mf : MascotFile), env.mascot = some mf →
      (env.pilAvailable = false →
        run env = ⟨[importErrorMsg, fallbackMsg],
          Outcome.wrote (OutFile.copyOfBytes mf.bytes)⟩) ∧
      (∀ e : String, env.pilAvailable = true → env.bodyError = some e →
        run env = ⟨[composeErrorMsg e, fallbackMsg],
          Outcome.wrote (OutFile.copyOfBytes mf.bytes)⟩) := by
  intro env mf hm
  constructor
  · intro hp
    simp [run, hp, shutilCopy, hm]
  · intro e hp he
    simp [run, hp, he, shutilCopy, hm]

/-- Witness for C3: a run without the library, and a run with an injected
composition error, both with a concrete mascot file present. -/
theorem C3_witness :
    run envNoPil = ⟨[importErrorMsg, fallbackMsg],
      Outcome.wrote (OutFile.copyOfBytes [137, 80, 78, 71])⟩ ∧
    run envBodyError = ⟨[composeErrorMsg ("boom"), fallbackMsg],
      Outcome.wrote (OutFile.copyOfBytes [137, 80, 78, 71])⟩ :=
  ⟨(C3_fallback_copy envNoPil sampleMascotFile rfl).1 rfl,
   (C3_fallback_copy envBodyError sampleMascotFile rfl).2 ("boom") rfl rfl⟩

/-- C4: whenever the imaging library is available and no composition
error occurs, the run succeeds and the output file is a PNG of exactly
1200x630 — with the mascot file present or absent alike. -/
theorem C4_output_dimensions :
    ∀ env : Env, env.pilAvailable = true → env.bodyError = none →
      run env = ⟨[successMsg], Outcome.wrote (OutFile.png 1200 630 ("PNG"))⟩ := by
  intro env hp he
  have hf : (compose env).savedFormat = "PNG" := rfl
  simp [run, hp, he, compose_savedW, compose_savedH, hf]

/-- Witness for C4: a successful run with the mascot present and one with
it absent. -/
theorem C4_witness :
    run envOk = ⟨[successMsg], Outcome.wrote (OutFile.png 1200 630 ("PNG"))⟩ ∧
    run envOkNoMascot = ⟨[successMsg], Outcome.wrote (OutFile.png 1200 630 ("PNG"))⟩ :=
  ⟨C4_output_dimensions envOk rfl rfl, C4_output_dimensions envOkNoMascot rfl rfl⟩

/-- C5: the mascot compositing step is performed iff the mascot file
exists at the check; when performed the image is resized to exactly
280x280 with LANCZOS resampling and pasted at offset (100, 175); when
the file is absent the canvas is left unchanged by this step. -/
theorem C5_mascot_step :
    ∀ env : Env,
      ((compose env).mascotEvents = [] ↔ env.mascot = none) ∧
      (env.mascot = none → (compose env).afterMascot = gradientImg) ∧
      (∀ mf : MascotFile, env.mascot = some mf →
        (compose env).mascotEvents =
          [Event.resize 280 280 Resampling.LANCZOS,
           Event.paste 100 175 mf.image.mode_RGBA] ∧
        (compose env).afterMascot =
          pasteImg gradientImg (pilResize mf.image 280 280 Resampling.LANCZOS env.oracle)
            100 175 mf.image.mode_RGBA) := by
  intro env
  refine ⟨?_, ?_, ?_⟩
  · cases hm : env.mascot with
    | none => simp [compose, hm]
    | some mf => simp [compose, hm]
  · intro hm
    simp [compose, hm]
  · intro mf hmf
    constructor
    · simp [compose, hmf, pilResize]
    · simp [compose, hmf, pilResize]

/-- Witness for C5: the canvas is untouched when the mascot is absent,
and the resize/paste events are recorded when it is present. -/
theorem C5_witness :
    (compose envOkNoMascot).afterMascot = gradientImg ∧
    (compose envOk).mascotEvents =
      [Event.resize 280 280 Resampling.LANCZOS, Event.paste 100 175 true] :=
  ⟨(C5_mascot_step envOkNoMascot).2.1 rfl,
   ((C5_mascot_step envOk).2.2 sampleMascotFile rfl).1⟩

/-- C6: if loading the system font at any of the four point sizes fails,
all four font roles are assigned the built-in default font; no run mixes
the system font with the fallback font across roles. -/
theorem C6_font_fallback :
    ∀ fails : Fin 4 → Bool,
      ((∃ i : Fin 4, fails i = true) → loadFonts fails = defaultFonts) ∧
      (loadFonts fails = systemFonts ∨ loadFonts fails = defaultFonts) := by
  intro fails
  constructor
  · rintro ⟨i, hi⟩
    have hor : fails 0 = true ∨ fails 1 = true ∨ fails 2 = true ∨ fails 3 = true := by
      fin_cases i
      · exact Or.inl hi
      · exact Or.inr (Or.inl hi)
      · exact Or.inr (Or.inr (Or.inl hi))
      · exact Or.inr (Or.inr (Or.inr hi))
    rw [loadFonts_eq]
    rcases hor with h | h | h | h <;> simp [h]
  · rw [loadFonts_eq]
    by_cases h : (fails 0 || fails 1 || fails 2 || fails 3) = true
    · right; simp [h]
    · left; simp [h]

/-- Witness for C6: a run whose second truetype load fails gets all four
defaults; a run with no failures gets no mixture either. -/
theorem C6_witness :
    loadFonts (fun i => decide (i = 1)) = defaultFonts ∧
    (loadFonts (fun _ => false) = systemFonts ∨
      loadFonts (fun _ => false) = defaultFonts) :=
  ⟨(C6_font_fallback (fun i => decide (i = 1))).1 ⟨1, by decide⟩,
   (C6_font_fallback (fun _ => false)).2⟩

/-- C7: inside the pasted rectangle, a mascot in RGBA mode is pasted
through its own alpha band, so a fully transparent mascot pixel leaves
the underlying canvas pixel unchanged; a mascot without an alpha channel
is pasted opaquely. -/
theorem C7_paste_mask :
    ∀ (img : Img) (m : Mascot) (x y : ℕ),
      100 ≤ x → x < 100 + m.w → 175 ≤ y → y < 175 + m.h →
      (m.mode_RGBA = true → m.alpha (x - 100) (y - 175) = 0 →
        (pasteImg img m 100 175 m.mode_RGBA).pix x y = img.pix x y) ∧
      (m.mode_RGBA = false →
        (pasteImg img m 100 175 m.mode_RGBA).pix x y = m.pix (x - 100) (y - 175)) := by
  intro img m x y h1 h2 h3 h4
  constructor
  · intro hrgba ha
    simp [pasteImg, h1, h2, h3, h4, hrgba, ha, pastePixel_zero]
  · intro hrgb
    simp [pasteImg, h1, h2, h3, h4, hrgb]

/-- Witness for C7: a fully transparent RGBA mascot leaves a base-canvas
pixel unchanged, and an RGB mascot overwrites it. -/
theorem C7_witness :
    (pasteImg newImage sampleMascotRGBA 100 175 sampleMascotRGBA.mode_RGBA).pix 150 200
      = newImage.pix 150 200 ∧
    (pasteImg newImage sampleMascotRGB 100 175 sampleMascotRGB.mode_RGBA).pix 150 200
      = sampleMascotRGB.pix 50 25 :=
  ⟨(C7_paste_mask newImage sampleMascotRGBA 150 200
      (by decide) (by decide) (by decide) (by decide)).1 rfl rfl,
   (C7_paste_mask newImage sampleMascotRGB 150 200
      (by decide) (by decide) (by decide) (by decide)).2 rfl⟩

/-- C8: every run that reaches the fallback path performs the copy with
no guard: if the mascot source file is missing at that point the program
terminates with an unhandled error and no further degradation path is
taken. -/
theorem C8_unguarded_fallback :
    ∀ env : Env, env.mascot = none →
      (env.pilAvailable = false ∨
        (env.pilAvailable = true ∧ env.bodyError.isSome = true)) →
      (run env).outcome = Outcome.crashed := by
  intro env hm h
  rcases h with hp | ⟨hp, hb⟩
  · simp [run, hp, shutilCopy, hm]
  · cases he : env.bodyError with
    | none => rw [he] at hb; simp at hb
    | some e => simp [run, hp, he, shutilCopy, hm]

/-- Witness for C8: the import-failure run with no mascot file crashes. -/
theorem C8_witness : (run envNoPilNoMascot).outcome = Outcome.crashed :=
  C8_unguarded_fallback envNoPilNoMascot rfl (Or.inl rfl)

/-- C9 counterexample: the text-drawing step of a successful run does not
draw exactly five strings — it draws six (`draw.text` is called six
times: title, subtitle, two tagline lines, the feature line, and the
closing pun). -/
theorem C9_counterexample : ¬ ((compose envOk).texts.length = 5) := by decide

/-- C9 (amended): the text-drawing step of a successful run draws exactly
six fixed text strings (title, subtitle, two tagline lines, a feature
line, and a closing pun), each at a fixed position with a fixed color. -/
theorem C9_text_draws :
    ∀ env : Env,
      (compose env).texts =
        [ ⟨(450, 180), "HORSESTRAP", "#f5f5f0",
            (loadFonts env.fontFails).title_font, none⟩,
          ⟨(450, 280), "The Anti-Framework Framework", "#b8b8c0",
            (loadFonts env.fontFails).subtitle_font, none⟩,
          ⟨(450, 330), "Zero-config deployment for .NET Umbraco CMS", "#999999",
            (loadFonts env.fontFails).tagline_font, none⟩,
          ⟨(450, 360), "Fresh Ubuntu to live site in 2 minutes", "#999999",
            (loadFonts env.fontFails).tagline_font, none⟩,
          ⟨(450, 410), "🚀 2-Min Deploy    🖥️ CMS Ready    ⚡ Auto SSL", "#f5f5f0",
            (loadFonts env.fontFails).feature_font, none⟩,
          ⟨(1160, 600), "No horse shit, just results. 🐴", "#999999",
            (loadFonts env.fontFails).feature_font, some ("ra")⟩ ] ∧
      (compose env).texts.length = 6 := by
  intro env
  exact ⟨rfl, rfl⟩

/-- C10: the gradient's red channel is monotonically non-increasing in
the row index on `[0, 630)`, descending from exactly 74 at `y = 0` to
exactly 58 at `y = 629`. -/
theorem C10_gradient_monotone :
    (∀ y1 y2 : ℕ, y1 ≤ y2 → y2 < 630 → color_value y2 ≤ color_value y1) ∧
    color_value 0 = 74 ∧ color_value 629 = 58 := by
  refine ⟨?_, ?_, ?_⟩
  · intro y1 y2 h12 h2
    have h1 : y1 < 630 := Nat.lt_of_le_of_lt h12 h2
    rw [color_value_eq y1 h1, color_value_eq y2 h2]
    have hmono : color_valueN y2 ≤ color_valueN y1 :=
      Nat.div_le_div_right (by omega)
    exact_mod_cast hmono
  · rw [color_value_eq 0 (by norm_num)]
    norm_num [color_valueN]
  · rw [color_value_eq 629 (by norm_num)]
    norm_num [color_valueN]

/-- Witness for C10: the red value at the bottom row is below the red
value at the top row, and the endpoint values are attained. -/
theorem C10_witness :
    color_value 629 ≤ color_value 0 ∧ color_value 0 = 74 ∧ color_value 629 = 58 :=
  ⟨C10_gradient_monotone.1 0 629 (by decide) (by decide),
   C10_gradient_monotone.2.1, C10_gradient_monotone.2.2⟩

end Horsestrap
